import Mathlib

/-
Verification development for the home-3d floorplan editor.

Embedding conventions (shared by every definition below):

* JavaScript objects used as string-keyed dictionaries (the `corners`,
  `walls`, ... records of the store) are modelled as insertion-ordered
  association lists `List (String × α)`.  `{ ...m, [k]: v }` updates an
  existing key in place and appends a fresh key at the end, which is
  exactly JavaScript's enumeration-order behaviour for non-index string
  keys; `delete m[k]` keeps the order of the remaining entries.
* JavaScript numbers are modelled as exact rationals (`ℚ`), and as reals
  (`ℝ`) in the two places where `Math.sqrt` flows into data rather than
  into a comparison.  A number that may be `undefined` or `NaN` is
  modelled as `Option`, with `none` standing for `undefined`/`NaN`:
  arithmetic on `none` stays `none` (NaN propagation) and every ordered
  comparison against `none` is `false`, matching IEEE comparisons on NaN.
* Comparisons of the form `Math.sqrt s < t` (hit tests, snap tolerances)
  are encoded without square roots as `0 < t ∧ s < t²`, which is
  equivalent for `s ≥ 0` because `Real.sqrt` is monotone.
* `id`/`x`/`y` of a corner object are `Option`s because the store's
  `addWall` spreads `undefined` when an endpoint corner is missing,
  producing a corner record that has only an `adjacentWalls` field.
* Ids generated with `Date.now()` are passed in as parameters.
* Property access with an `undefined` key (`corners[wall.startCorner]`
  when `startCorner` is `undefined`) coerces the key to the string
  "undefined"; `Option.getD "undefined"` models that coercion.
-/

namespace Home3D

/-! ## JavaScript object maps -/

abbrev JsMap (α : Type) := List (String × α)

def jsGet {α : Type} (m : JsMap α) (k : String) : Option α :=
  (m.find? (fun p => p.1 == k)).map (·.2)

def jsSet {α : Type} (m : JsMap α) (k : String) (v : α) : JsMap α :=
  if (m.find? (fun p => p.1 == k)).isSome then
    m.map (fun p => if p.1 == k then (k, v) else p)
  else
    m ++ [(k, v)]

def jsDelete {α : Type} (m : JsMap α) (k : String) : JsMap α :=
  m.filter (fun p => !(p.1 == k))

def jsKeys {α : Type} (m : JsMap α) : List String :=
  m.map (·.1)

def jsValues {α : Type} (m : JsMap α) : List α :=
  m.map (·.2)

/-! ## Data model (src/types: Corner, Wall, FloorplanData, EditorMode) -/

/-- A runtime corner object.  `id`, `x`, `y` are `Option`s because the
store's `addWall` can create a corner record holding only
`adjacentWalls` (spread of `undefined`). -/
structure JsCorner (α : Type) where
  id : Option String
  x : Option α
  y : Option α
  adjacentWalls : List String
deriving DecidableEq

structure Wall (α : Type) where
  id : String
  startCorner : String
  endCorner : String
  thickness : α
  height : α
deriving DecidableEq

/-- The floorplan state: the `corners` and `walls` maps of
`FloorplanData`.  The `rooms` and `items` maps are opaque to every claim
verified here and are carried through unchanged by all modelled
operations, so they are omitted from the state. -/
structure Floorplan (α : Type) where
  corners : JsMap (JsCorner α)
  walls : JsMap (Wall α)
deriving DecidableEq

def emptyFloorplan {α : Type} : Floorplan α := ⟨[], []⟩

inductive EditorMode
  | move
  | draw
  | delete
  | placeItem
deriving DecidableEq

/-! ## Wall graph store (floorplan-store: addCorner, moveCorner,
removeCorner, addWall, removeWall, loadFloorplan) -/

/-- The source's `addCorner`: `corners[corner.id] = corner`.  An `undefined` id would
be coerced to the key "undefined". -/
def addCorner {α : Type} (fp : Floorplan α) (c : JsCorner α) : Floorplan α :=
  { fp with corners := jsSet fp.corners (c.id.getD ("undefined")) c }

/-- The source's `moveCorner(id, x, y)`: `corners[id] = { ...corners[id], x, y }`.
When `id` is absent the spread of `undefined` yields a record whose
`adjacentWalls` is `undefined`; that field is modelled as `[]` here —
no verified claim exercises `moveCorner` on an absent id. -/
def moveCorner {α : Type} (fp : Floorplan α) (id : String) (x y : α) : Floorplan α :=
  let c' : JsCorner α :=
    match jsGet fp.corners id with
    | some c => { c with x := some x, y := some y }
    | none => { id := none, x := some x, y := some y, adjacentWalls := [] }
  { fp with corners := jsSet fp.corners id c' }

/-- The source's `removeCorner(id)`: deletes every wall listed in the corner's
`adjacentWalls` and then the corner itself.  Note that the source never
touches the other endpoints' `adjacentWalls` lists. -/
def removeCorner {α : Type} (fp : Floorplan α) (id : String) : Floorplan α :=
  match jsGet fp.corners id with
  | none => fp
  | some c =>
      { fp with
        corners := jsDelete fp.corners id,
        walls := c.adjacentWalls.foldl (fun ws wid => jsDelete ws wid) fp.walls }

/-- The corner record written by `addWall` for one endpoint:
`{ ...corners[k], adjacentWalls: [...(corners[k]?.adjacentWalls || []), wall.id] }`.
When the endpoint is missing this is a spread of `undefined`, i.e. a
fresh record holding only the new adjacency list. -/
def adjPlus {α : Type} (c? : Option (JsCorner α)) (wid : String) : JsCorner α :=
  match c? with
  | some c => { c with adjacentWalls := c.adjacentWalls ++ [wid] }
  | none => { id := none, x := none, y := none, adjacentWalls := [wid] }

/-- The source's `addWall(wall)`: stores the wall and rewrites both endpoint entries.
Both endpoint records are computed from the pre-update corner map, and
the `endCorner` assignment wins when the two keys coincide, exactly as
in the source's object literal. -/
def addWall {α : Type} (fp : Floorplan α) (w : Wall α) : Floorplan α :=
  { fp with
    walls := jsSet fp.walls w.id w,
    corners :=
      jsSet
        (jsSet fp.corners w.startCorner (adjPlus (jsGet fp.corners w.startCorner) w.id))
        w.endCorner (adjPlus (jsGet fp.corners w.endCorner) w.id) }

/-- The source's `removeWall(id)`: deletes the wall and filters its id out of both
endpoints' `adjacentWalls` (each endpoint only if present). -/
def removeWall {α : Type} (fp : Floorplan α) (id : String) : Floorplan α :=
  match jsGet fp.walls id with
  | none => fp
  | some w =>
      let cs1 :=
        match jsGet fp.corners w.startCorner with
        | some c =>
            jsSet fp.corners w.startCorner
              { c with adjacentWalls := c.adjacentWalls.filter (fun x => !(x == id)) }
        | none => fp.corners
      let cs2 :=
        match jsGet cs1 w.endCorner with
        | some c =>
            jsSet cs1 w.endCorner
              { c with adjacentWalls := c.adjacentWalls.filter (fun x => !(x == id)) }
        | none => cs1
      { corners := cs2, walls := jsDelete fp.walls id }

/-- The source's `loadFloorplan(data)`: `JSON.parse` then `set({ floorplan })`, the
whole body inside `try/catch`.  The already-parsed document is passed as
`some doc`; `none` models a parse exception, which is caught and leaves
the current floorplan in place.  No validation of any kind is performed
on the parsed document. -/
def loadFloorplan {α : Type} (parsed : Option (Floorplan α)) (current : Floorplan α) :
    Floorplan α :=
  match parsed with
  | some fp => fp
  | none => current

/-! ## Geometry kernel comparisons (math.ts)

Distance comparisons `Math.sqrt s < t` are encoded square-free as
`0 < t ∧ s < t*t`, equivalent for `s ≥ 0` since `Real.sqrt` is
monotone and nonnegative. -/

structure Pt where
  x : ℚ
  y : ℚ
deriving DecidableEq

/-- Encodes `Real.sqrt sq < t` for `sq ≥ 0`. -/
def sqrtLt (sq t : ℚ) : Bool :=
  decide (0 < t) && decide (sq < t * t)

/-- The source's `distance({x: px, y: py}, {x: qx, y: qy}) < t` on possibly-undefined
coordinates: any `undefined`/NaN operand makes the comparison `false`. -/
def jsDistLt (px py qx qy : Option ℚ) (t : ℚ) : Bool :=
  match px, py, qx, qy with
  | some ax, some ay, some bx, some bz =>
      sqrtLt ((bx - ax) * (bx - ax) + (bz - ay) * (bz - ay)) t
  | _, _, _, _ => false

/-- The source's `MathUtils.distanceToLineSegment(p, a, b) < t` (math.ts): projects
onto the segment with the parameter clamped to `[0,1]`, falling back to
the plain point distance when the segment is degenerate. -/
def distanceToLineSegmentLt (p a b : Pt) (t : ℚ) : Bool :=
  let ax := p.x - a.x
  let ay := p.y - a.y
  let cx := b.x - a.x
  let cy := b.y - a.y
  let dot := ax * cx + ay * cy
  let lenSq := cx * cx + cy * cy
  if lenSq = 0 then
    sqrtLt (ax * ax + ay * ay) t
  else
    let param := max 0 (min 1 (dot / lenSq))
    let qx := a.x + param * cx
    let qy := a.y + param * cy
    sqrtLt ((p.x - qx) * (p.x - qx) + (p.y - qy) * (p.y - qy)) t

/-! ## Hit-test service (useHitTest) -/

/-- The source's `findCornerAt(worldX, worldY, tolerance = 15)`: first corner whose
distance to the point is under `tolerance * cmPerPixel`.  The world
coordinates are `Option`s because `handleMouseUp` calls this at the
drawing target, which can carry an undefined coordinate. -/
def findCornerAt (corners : List (JsCorner ℚ)) (wx wy : Option ℚ) (tol cpp : ℚ) :
    Option (JsCorner ℚ) :=
  corners.find? (fun c => jsDistLt wx wy c.x c.y (tol * cpp))

/-- The body of `findWallAt`'s `for` loop for a single wall: `true`
exactly when the loop would `return wall` at this iteration.  A wall
whose endpoint corner is missing is skipped (`continue`), a degenerate
wall (`lenSq === 0`) is skipped, and otherwise the inline
point-to-segment distance is compared against
`tolerance * cmPerPixel`.  A resolved corner with an undefined
coordinate poisons every comparison with NaN, which the loop treats the
same as a miss. -/
def wallHitInline (corners : List (JsCorner ℚ)) (wx wy tol cpp : ℚ) (w : Wall ℚ) : Bool :=
  match corners.find? (fun c => c.id == some w.startCorner),
        corners.find? (fun c => c.id == some w.endCorner) with
  | some s, some e =>
      match s.x, s.y, e.x, e.y with
      | some sx, some sy, some ex, some ey =>
          let ax := wx - sx
          let ay := wy - sy
          let cx := ex - sx
          let cy := ey - sy
          let dot := ax * cx + ay * cy
          let lenSq := cx * cx + cy * cy
          if lenSq = 0 then false
          else
            let param := dot / lenSq
            let q : ℚ × ℚ :=
              if param < 0 then (sx, sy)
              else if 1 < param then (ex, ey)
              else (sx + param * cx, sy + param * cy)
            sqrtLt ((wx - q.1) * (wx - q.1) + (wy - q.2) * (wy - q.2)) (tol * cpp)
      | _, _, _, _ => false
  | _, _ => false

/-- The source's `findWallAt(worldX, worldY, tolerance = 15)` (useHitTest): the
`for` loop over the wall list returning the first wall at which the
body hits, `null` when none does. -/
def findWallAt (walls : List (Wall ℚ)) (corners : List (JsCorner ℚ))
    (wx wy tol cpp : ℚ) : Option (Wall ℚ) :=
  walls.find? (wallHitInline corners wx wy tol cpp)

/-! ## Viewport transform (useViewport, FloorplanEditor.canvasToWorld /
worldToCanvas) -/

structure Viewport where
  originX : ℚ
  originY : ℚ
  zoom : ℚ
  cmPerPixel : ℚ
  pixelsPerCm : ℚ
deriving DecidableEq

/-- The editor's `canvasToWorld`:
`world = canvas * cmPerPixel + origin * cmPerPixel` on each axis. -/
def canvasToWorld (v : Viewport) (canvasX canvasY : ℚ) : ℚ × ℚ :=
  (canvasX * v.cmPerPixel + v.originX * v.cmPerPixel,
   canvasY * v.cmPerPixel + v.originY * v.cmPerPixel)

/-- The editor's `worldToCanvas`:
`canvas = (world - origin * cmPerPixel) * pixelsPerCm` on each axis. -/
def worldToCanvas (v : Viewport) (worldX worldY : ℚ) : ℚ × ℚ :=
  ((worldX - v.originX * v.cmPerPixel) * v.pixelsPerCm,
   (worldY - v.originY * v.cmPerPixel) * v.pixelsPerCm)

/-- The source's `handleZoom(deltaY, mouseX, mouseY, canvasToWorld)` (useViewport).
The callback passed by `handleWheel` is the editor's `canvasToWorld`
over the same viewport, so it is inlined here. -/
def handleZoom (v : Viewport) (deltaY mouseX mouseY : ℚ) : Viewport :=
  let worldBefore := canvasToWorld v mouseX mouseY
  let zoomFactor : ℚ := if 0 < deltaY then 4 / 5 else 5 / 4
  let newZoom := max (1 / 5) (min 8 (v.zoom * zoomFactor))
  let newCmPerPixel := 2 / newZoom
  let newPixelsPerCm := newZoom / 2
  let newCanvasX := (worldBefore.1 - v.originX * v.cmPerPixel) * newPixelsPerCm
  let newCanvasY := (worldBefore.2 - v.originY * v.cmPerPixel) * newPixelsPerCm
  let originAdjustX := (newCanvasX - mouseX) / newPixelsPerCm
  let originAdjustY := (newCanvasY - mouseY) / newPixelsPerCm
  { v with
    zoom := newZoom,
    cmPerPixel := newCmPerPixel,
    pixelsPerCm := newPixelsPerCm,
    originX := v.originX + originAdjustX,
    originY := v.originY + originAdjustY }

/-- The source's `handlePan(deltaX, deltaY)`: subtracts the device delta from the
origin. -/
def handlePan (v : Viewport) (deltaX deltaY : ℚ) : Viewport :=
  { v with originX := v.originX - deltaX, originY := v.originY - deltaY }

/-! ## Drawing state machine (FloorplanEditor.handleMouseUp) -/

/-- The editor's drawing state: `{ lastNode, targetX, targetY,
firstCorner }`.  The targets are `Option`s because adopting an existing
corner copies its possibly-undefined coordinates into them. -/
structure DrawState where
  lastNode : Option (JsCorner ℚ)
  targetX : Option ℚ
  targetY : Option ℚ
  firstCorner : Option (JsCorner ℚ)
deriving DecidableEq

/-- The source's `handleMouseUp` (FloorplanEditor), restricted to the state it
reads and writes: the floorplan, the drawing state and the editor mode.
`freshCornerId`/`freshWallId` stand for the two `Date.now()`-based ids.
The `setMouseState`/`setDraggedWallId` updates at the end of the source
handler touch only mouse bookkeeping and are not part of the modelled
state.  `SNAP_TOLERANCE = 25` (world cm), corner hit-test tolerance
`15` device px. -/
def handleMouseUp (fp : Floorplan ℚ) (ds : DrawState) (mode : EditorMode)
    (hasMoved : Bool) (cpp : ℚ) (freshCornerId freshWallId : String) :
    Floorplan ℚ × DrawState × EditorMode :=
  if mode = EditorMode.draw ∧ hasMoved = false then
    let clicked := findCornerAt (jsValues fp.corners) ds.targetX ds.targetY 15 cpp
    -- `isClosing = lastNode && firstCorner && clickedCorner &&
    --   clickedCorner.id === firstCorner.id &&
    --   distance({targetX, targetY}, firstCorner) < SNAP_TOLERANCE`
    let isClosing : Bool :=
      match ds.lastNode, ds.firstCorner, clicked with
      | some _, some fc, some c =>
          (c.id == fc.id) && jsDistLt ds.targetX ds.targetY fc.x fc.y 25
      | _, _, _ => false
    match ds.lastNode with
    | none =>
        -- first click: adopt the clicked corner, or create a new one
        match clicked with
        | some c =>
            (fp, { lastNode := some c, targetX := c.x, targetY := c.y,
                   firstCorner := some c }, mode)
        | none =>
            let nc : JsCorner ℚ :=
              { id := some freshCornerId, x := ds.targetX, y := ds.targetY,
                adjacentWalls := [] }
            (addCorner fp nc,
             { lastNode := some nc, targetX := nc.x, targetY := nc.y,
               firstCorner := some nc }, mode)
    | some ln =>
        match ds.firstCorner, isClosing with
        | some fc, true =>
            -- closing the room: wall lastNode→firstCorner, leave draw mode
            let nw : Wall ℚ :=
              { id := freshWallId, startCorner := ln.id.getD ("undefined"),
                endCorner := fc.id.getD ("undefined"), thickness := 10, height := 250 }
            (addWall fp nw,
             { lastNode := none, targetX := some 0, targetY := some 0,
               firstCorner := none },
             EditorMode.move)
        | _, _ =>
            match clicked with
            | some c =>
                -- continue the chain onto an existing corner
                let nw : Wall ℚ :=
                  { id := freshWallId, startCorner := ln.id.getD ("undefined"),
                    endCorner := c.id.getD ("undefined"), thickness := 10, height := 250 }
                (addWall fp nw,
                 { ds with lastNode := some c, targetX := c.x, targetY := c.y }, mode)
            | none =>
                -- new corner plus connecting wall
                let nc : JsCorner ℚ :=
                  { id := some freshCornerId, x := ds.targetX, y := ds.targetY,
                    adjacentWalls := [] }
                let nw : Wall ℚ :=
                  { id := freshWallId, startCorner := ln.id.getD ("undefined"),
                    endCorner := freshCornerId, thickness := 10, height := 250 }
                (addWall (addCorner fp nc) nw,
                 { ds with lastNode := some nc, targetX := nc.x, targetY := nc.y }, mode)
  else
    (fp, ds, mode)

/-! ## Room extractor (math.ts, GeometryUtils.findRooms /
findSmallestCycle)

The recursive `dfs` closure is fuel-indexed; `none` models a thrown
exception (`corners[cornerId]` or `walls[wallId]` being `undefined`) or
fuel exhaustion.  `findRooms` supplies more fuel than the recursion can
consume (each recursive call inserts a fresh corner into `visited`), so
fuel exhaustion is unreachable at the inputs evaluated below. -/

structure DfsSt where
  visited : List String
  path : List String
deriving DecidableEq

/-- The `dfs` closure of `findSmallestCycle`: on a visited node, reports
whether the node is on the current path; otherwise pushes the node and
scans its `adjacentWalls` in order, returning `true` as soon as a
recursive call does (without popping), and popping the node on fall
through. -/
def dfsVisit (corners : JsMap (JsCorner ℚ)) (walls : JsMap (Wall ℚ)) :
    Nat → String → DfsSt → Option (Bool × DfsSt)
  | 0, _, _ => none
  | fuel + 1, cornerId, st =>
    if st.visited.contains cornerId then
      some (st.path.contains cornerId, st)
    else
      let st1 : DfsSt :=
        { visited := st.visited ++ [cornerId], path := st.path ++ [cornerId] }
      match jsGet corners cornerId with
      | none => none
      | some corner =>
          let step :=
            corner.adjacentWalls.foldl
              (fun acc wid =>
                match acc with
                | none => none
                | some (true, s) => some (true, s)
                | some (false, s) =>
                    match jsGet walls wid with
                    | none => none
                    | some wall =>
                        let nextCorner :=
                          if wall.startCorner == cornerId then wall.endCorner
                          else wall.startCorner
                        dfsVisit corners walls fuel nextCorner s)
              (some (false, st1))
          match step with
          | none => none
          | some (true, s) => some (true, s)
          | some (false, s) => some (false, { s with path := s.path.dropLast })

/-- The source's `findSmallestCycle(startCorner, corners, walls)`: runs the dfs from
the start corner and returns the path array as it stands afterwards —
the WHOLE path, not the sub-path from the repeated node (the computed
`cycleStart` index is only used to return `true`). -/
def findSmallestCycle (corners : JsMap (JsCorner ℚ)) (walls : JsMap (Wall ℚ))
    (fuel : Nat) (startCorner : String) : Option (List String) :=
  match dfsVisit corners walls fuel startCorner ⟨[], []⟩ with
  | none => none
  | some (_, st) => some st.path

/-- The source's `GeometryUtils.findRooms(corners, walls)`: for each corner key in
order, skip if already visited, otherwise take the smallest-cycle path;
paths of length ≥ 3 are reported as rooms and their nodes marked
visited. -/
def findRooms (corners : JsMap (JsCorner ℚ)) (walls : JsMap (Wall ℚ)) :
    Option (List (List String)) :=
  let fuel := corners.length + 1
  let step :=
    (jsKeys corners).foldl
      (fun acc cornerId =>
        match acc with
        | none => none
        | some (visited, rooms) =>
            if (visited : List String).contains cornerId then some (visited, rooms)
            else
              match findSmallestCycle corners walls fuel cornerId with
              | none => none
              | some cycle =>
                  if 3 ≤ cycle.length then
                    some (visited ++ cycle, rooms ++ [cycle])
                  else some (visited, rooms))
      (some (([] : List String), ([] : List (List String))))
  step.map (·.2)

/-! ## Inline length-edit parsing (FloorplanEditor.parseFeetInches)

The three anchored regular expressions are translated into a
hand-rolled character parser with the same backtracking behaviour
(each optional group is safe to take greedily).  Results are exact:
2.54 is the rational 127/50. -/

def digitsToNat (ds : List Char) : Nat :=
  ds.foldl (fun n c => 10 * n + (c.toNat - 48)) 0

/-- Splits off a maximal leading run of ASCII digits (`\d+` when the
first component is nonempty). -/
def takeDigits : List Char → List Char × List Char
  | [] => ([], [])
  | c :: cs =>
      if c.isDigit then
        let p := takeDigits cs
        (c :: p.1, p.2)
      else ([], c :: cs)

/-- JavaScript `\s` for the inputs in scope: space, tab, LF, VT, FF,
CR. -/
def isJsSpace (c : Char) : Bool :=
  c == ' ' || c == '\t' || c == '\n' || c == '\x0b' || c == '\x0c' || c == '\r'

/-- The source's `parseFloat` of a `\d+(?:\.\d+)?` match. -/
def decToRat (intDs fracDs : List Char) : ℚ :=
  (digitsToNat intDs : ℚ) + (digitsToNat fracDs : ℚ) / ((10 : ℚ) ^ fracDs.length)

/-- The source's `\d+(?:\.\d+)?` with the regex's backtracking: the fractional part
is only consumed when a digit follows the dot.  Returns the parsed
value and the rest. -/
def takeDecimal (cs : List Char) : Option (ℚ × List Char) :=
  let p1 := takeDigits cs
  if p1.1.isEmpty then none
  else
    match p1.2 with
    | '.' :: rest =>
        let p2 := takeDigits rest
        if p2.1.isEmpty then some (decToRat p1.1 [], p1.2)
        else some (decToRat p1.1 p2.1, p2.2)
    | r => some (decToRat p1.1 [], r)

/-- First pattern of `parseFeetInches`: `^(\d+)'\s*(\d+)?"?$`, value
`(feet * 12 + inches) * 2.54`. -/
def matchFeetInchPair (cs : List Char) : Option ℚ :=
  let p1 := takeDigits cs
  if p1.1.isEmpty then none
  else
    match p1.2 with
    | '\'' :: r2 =>
        let r3 := r2.dropWhile isJsSpace
        let p2 := takeDigits r3
        let r5 :=
          match p2.2 with
          | '"' :: r => r
          | r => r
        if r5.isEmpty then
          some (((digitsToNat p1.1 * 12 + digitsToNat p2.1 : Nat) : ℚ) * (127 / 50))
        else none
    | _ => none

/-- Second pattern: `^(\d+(?:\.\d+)?)'` (rest unconstrained), value
`feet * 12 * 2.54`. -/
def matchDecimalFeet (cs : List Char) : Option ℚ :=
  match takeDecimal cs with
  | none => none
  | some (v, r) =>
      match r with
      | '\'' :: _ => some (v * 12 * (127 / 50))
      | _ => none

/-- Third pattern: `^(\d+(?:\.\d+)?)"$`, value `inches * 2.54`. -/
def matchDecimalInches (cs : List Char) : Option ℚ :=
  match takeDecimal cs with
  | none => none
  | some (v, r) =>
      match r with
      | ['"'] => some (v * (127 / 50))
      | _ => none

/-- The source's `parseFeetInches(input)`: the three regexes tried in order, `null`
when none matches. -/
def parseFeetInches (input : String) : Option ℚ :=
  match matchFeetInchPair input.data with
  | some v => some v
  | none =>
      match matchDecimalFeet input.data with
      | some v => some v
      | none => matchDecimalInches input.data

/-! ## Real-valued geometry: wall length/center (math.ts) and the
inline length-edit commit (FloorplanEditor.handleEditBlurOrEnter)

These are the two places where `Math.sqrt` flows into data, so the
coordinates are `ℝ`.  An `Option ℝ`-valued result uses `none` for NaN
(arithmetic on an undefined coordinate). -/

/-- The source's `MathUtils.wallLength(wall, corners)`: 0 when either endpoint is
missing from the corner map, otherwise the endpoint distance (`none`
models the NaN produced by an endpoint record without coordinates). -/
noncomputable def wallLength (w : Wall ℝ) (corners : JsMap (JsCorner ℝ)) : Option ℝ :=
  match jsGet corners w.startCorner, jsGet corners w.endCorner with
  | some s, some e =>
      match s.x, s.y, e.x, e.y with
      | some sx, some sy, some ex, some ey =>
          some (Real.sqrt ((ex - sx) * (ex - sx) + (ey - sy) * (ey - sy)))
      | _, _, _, _ => none
  | _, _ => some 0

/-- The source's `MathUtils.wallCenter(wall, corners)`: `null` (outer `none`) when
either endpoint is missing, otherwise the midpoint (inner `none`s model
NaN coordinates). -/
noncomputable def wallCenter (w : Wall ℝ) (corners : JsMap (JsCorner ℝ)) :
    Option (Option ℝ × Option ℝ) :=
  match jsGet corners w.startCorner, jsGet corners w.endCorner with
  | some s, some e =>
      let mid : Option ℝ → Option ℝ → Option ℝ := fun a b =>
        match a, b with
        | some av, some bv => some ((av + bv) / 2)
        | _, _ => none
      some (mid s.x e.x, mid s.y e.y)
  | _, _ => none

open Classical in
/-- The source's `handleEditBlurOrEnter` (FloorplanEditor): commits the inline wall
length edit.  Returns the floorplan together with the resulting
`editingWallId` (always `none` on the paths below, i.e. the editor
closes; `setEditPos(null)` is bookkeeping for the input box position
and is not modelled).  The result is `none` exactly on the unmodelled
path where a matched corner record lacks a coordinate, which in the
source would propagate NaN into the moved corner. -/
noncomputable def editCommit (fp : Floorplan ℝ) (editingWallId : Option String)
    (editValue : String) : Option (Floorplan ℝ × Option String) :=
  match editingWallId with
  | none => some (fp, none)
  | some wid =>
      match (jsValues fp.walls).find? (fun w => w.id == wid) with
      | none => some (fp, none)
      | some wall =>
          match (jsValues fp.corners).find? (fun c => c.id == some wall.startCorner),
                (jsValues fp.corners).find? (fun c => c.id == some wall.endCorner) with
          | some s, some e =>
              match parseFeetInches editValue with
              | none => some (fp, none)
              | some newLenCm =>
                  -- `if (!newLenCm || newLenCm < 10)`: 0 is falsy
                  if newLenCm = 0 ∨ newLenCm < 10 then some (fp, none)
                  else
                    match s.x, s.y, e.x, e.y with
                    | some sx, some sy, some ex, some ey =>
                        let dx := ex - sx
                        let dy := ey - sy
                        let oldLen := Real.sqrt (dx * dx + dy * dy)
                        if oldLen = 0 then some (fp, none)
                        else
                          let scale := ((newLenCm : ℚ) : ℝ) / oldLen
                          some
                            (moveCorner fp (e.id.getD ("undefined"))
                              (sx + dx * scale) (sy + dy * scale), none)
                    | _, _, _, _ => none
          | _, _ => some (fp, none)

/-! ## Characterisation predicate for `findWallAt`

`wallHit` is the per-wall predicate that the amended hit-test claim
refers to: both endpoints resolve to corners with defined coordinates,
the segment is non-degenerate, and the kernel's point-to-segment
distance is under the scaled tolerance. -/

def wallHit (corners : List (JsCorner ℚ)) (wx wy t : ℚ) (w : Wall ℚ) : Bool :=
  match corners.find? (fun c => c.id == some w.startCorner),
        corners.find? (fun c => c.id == some w.endCorner) with
  | some s, some e =>
      match s.x, s.y, e.x, e.y with
      | some sx, some sy, some ex, some ey =>
          !((ex - sx) * (ex - sx) + (ey - sy) * (ey - sy) == 0) &&
            distanceToLineSegmentLt ⟨wx, wy⟩ ⟨sx, sy⟩ ⟨ex, ey⟩ t
      | _, _, _, _ => false
  | _, _ => false

/-! ## Concrete fixtures used by the claim theorems -/

/-- C1: a wall whose endpoints exist nowhere. -/
def wallAB : Wall ℚ := ⟨"w1", "a", "b", 10, 250⟩

/-- C2: two corners joined by one wall, then the first corner removed. -/
def cornerA : JsCorner ℚ := ⟨some ("a"), some 0, some 0, []⟩

def cornerB : JsCorner ℚ := ⟨some ("b"), some 100, some 0, []⟩

def wallW : Wall ℚ := ⟨"w", "a", "b", 10, 250⟩

def removeCornerScenario : Floorplan ℚ :=
  removeCorner (addWall (addCorner (addCorner emptyFloorplan cornerA) cornerB) wallW) ("a")

/-- C3: the initial viewport (`useViewport` defaults). -/
def initialViewport : Viewport := ⟨0, 0, 1, 2, 1 / 2⟩

/-- C6: the 4-corner square room, built through the store operations in
the order the draw mode issues them. -/
def sqC1 : JsCorner ℚ := ⟨some ("c1"), some 0, some 0, []⟩

def sqC2 : JsCorner ℚ := ⟨some ("c2"), some 100, some 0, []⟩

def sqC3 : JsCorner ℚ := ⟨some ("c3"), some 100, some 100, []⟩

def sqC4 : JsCorner ℚ := ⟨some ("c4"), some 0, some 100, []⟩

def sqW1 : Wall ℚ := ⟨"w1", "c1", "c2", 10, 250⟩

def sqW2 : Wall ℚ := ⟨"w2", "c2", "c3", 10, 250⟩

def sqW3 : Wall ℚ := ⟨"w3", "c3", "c4", 10, 250⟩

def sqW4 : Wall ℚ := ⟨"w4", "c4", "c1", 10, 250⟩

def squareFloorplan : Floorplan ℚ :=
  addWall (addWall (addCorner (addWall (addCorner (addWall (addCorner (addCorner
    emptyFloorplan sqC1) sqC2) sqW1) sqC3) sqW2) sqC4) sqW3) sqW4

/-- C7: a persisted document whose only wall references a corner map
that does not contain its endpoints. -/
def orphanWall : Wall ℚ := ⟨"w", "ghost", "b", 10, 250⟩

def orphanDoc : Floorplan ℚ := ⟨[], [("w", orphanWall)]⟩

/-- C9 counterexample: a zero-length wall sitting exactly on the query
point. -/
def degenerateCorner : JsCorner ℚ := ⟨some ("a"), some 0, some 0, ["wd"]⟩

def degenerateWall : Wall ℚ := ⟨"wd", "a", "a", 10, 250⟩

/-- C9 concrete example: the wall from (0,0) to (100,0). -/
def hitCornerA : JsCorner ℚ := ⟨some ("a"), some 0, some 0, ["w"]⟩

def hitCornerB : JsCorner ℚ := ⟨some ("b"), some 100, some 0, ["w"]⟩

def hitWall : Wall ℚ := ⟨"w", "a", "b", 10, 250⟩

/-- C5 witness: an open chain a→b about to be closed back onto a. -/
def chainCornerA : JsCorner ℚ := ⟨some ("a"), some 0, some 0, ["w1"]⟩

def chainCornerB : JsCorner ℚ := ⟨some ("b"), some 100, some 0, ["w1"]⟩

def chainWall : Wall ℚ := ⟨"w1", "a", "b", 10, 250⟩

def chainFloorplan : Floorplan ℚ :=
  ⟨[("a", chainCornerA), ("b", chainCornerB)], [("w1", chainWall)]⟩

def chainDrawState : DrawState :=
  ⟨some chainCornerB, some 0, some 0, some chainCornerA⟩

/-- C8 witness: a 3-4-5 wall from (0,0) to (30,40), edited to 150". -/
def editCornerS : JsCorner ℝ := ⟨some ("a"), some 0, some 0, ["w"]⟩

def editCornerE : JsCorner ℝ := ⟨some ("b"), some 30, some 40, ["w"]⟩

def editWall : Wall ℝ := ⟨"w", "a", "b", 10, 250⟩

def editFloorplan : Floorplan ℝ :=
  ⟨[("a", editCornerS), ("b", editCornerE)], [("w", editWall)]⟩

/-- C10 witness: a wall over an empty corner map. -/
def orphanWallR : Wall ℝ := ⟨"w", "a", "b", 10, 250⟩

/-- C4 witness: a viewport with a nonzero pan at default zoom. -/
def pannedViewport : Viewport := ⟨3, 7, 1, 2, 1 / 2⟩

/-! ## Helper lemmas about the JavaScript map model -/

theorem jsGet_isSome_iff_mem_jsKeys {α : Type} (m : JsMap α) (k : String) :
    (jsGet m k).isSome = true ↔ k ∈ jsKeys m := by
  induction m with
  | nil => simp [jsGet, jsKeys]
  | cons p rest ih =>
      by_cases h : (p.1 == k) = true
      · have hk : p.1 = k := eq_of_beq h
        have hf : (p :: rest).find? (fun q => q.1 == k) = some p :=
          List.find?_cons_of_pos _ h
        simp [jsGet, hf, jsKeys, hk]
      · have hk : ¬ k = p.1 := by
          intro he
          exact h (by simp [he])
        have hf : (p :: rest).find? (fun q => q.1 == k) = rest.find? (fun q => q.1 == k) :=
          List.find?_cons_of_neg _ h
        have h2 : jsGet (p :: rest) k = jsGet rest k := by
          simp [jsGet, hf]
        rw [h2, ih]
        simp [jsKeys, hk]

theorem jsKeys_jsSet_of_isSome {α : Type} {m : JsMap α} {k : String} (v : α)
    (h : (jsGet m k).isSome = true) : jsKeys (jsSet m k v) = jsKeys m := by
  have hf : (m.find? (fun p => p.1 == k)).isSome = true := by
    simpa [jsGet, Option.isSome_map'] using h
  unfold jsSet
  rw [if_pos hf]
  unfold jsKeys
  rw [List.map_map]
  apply List.map_congr_left
  intro p _
  by_cases hpk : (p.1 == k) = true
  · simp [Function.comp, hpk, (eq_of_beq hpk).symm]
  · simp [Function.comp, hpk]

theorem jsKeys_jsSet_of_none {α : Type} {m : JsMap α} {k : String} (v : α)
    (h : jsGet m k = none) : jsKeys (jsSet m k v) = jsKeys m ++ [k] := by
  have hf : m.find? (fun p => p.1 == k) = none := by
    simpa [jsGet, Option.map_eq_none'] using h
  unfold jsSet
  rw [hf]
  simp [jsKeys]

/-- The source's `addWall` on a floorplan that already contains both endpoint keys
creates no corner entry: the corner key list is unchanged. -/
theorem jsKeys_addWall_corners {α : Type} (fp : Floorplan α) (w : Wall α)
    (hs : (jsGet fp.corners w.startCorner).isSome = true)
    (he : (jsGet fp.corners w.endCorner).isSome = true) :
    jsKeys (addWall fp w).corners = jsKeys fp.corners := by
  unfold addWall
  have h1 : jsKeys (jsSet fp.corners w.startCorner (adjPlus (jsGet fp.corners w.startCorner) w.id))
      = jsKeys fp.corners := jsKeys_jsSet_of_isSome _ hs
  have h2 : (jsGet (jsSet fp.corners w.startCorner (adjPlus (jsGet fp.corners w.startCorner) w.id))
      w.endCorner).isSome = true := by
    rw [jsGet_isSome_iff_mem_jsKeys, h1, ← jsGet_isSome_iff_mem_jsKeys]
    exact he
  simp only
  rw [jsKeys_jsSet_of_isSome _ h2, h1]

/-- The source's `addWall` with a fresh wall id appends exactly that id to the wall
key list. -/
theorem jsKeys_addWall_walls {α : Type} (fp : Floorplan α) (w : Wall α)
    (hfresh : jsGet fp.walls w.id = none) :
    jsKeys (addWall fp w).walls = jsKeys fp.walls ++ [w.id] := by
  unfold addWall
  exact jsKeys_jsSet_of_none _ hfresh

/-! ## Claim theorems -/

/-- C1 (code bug evidence): `addWall` called with a wall whose endpoint
corners are absent from the corner map does not fail and does not leave
the floorplan unchanged: it installs the wall and silently creates
`adjacentWalls` entries keyed by both nonexistent corner ids, exactly
the behaviour the claim (and spec sections 4.3/7/9) rules out. -/
theorem c1_addWall_missing_endpoint_corrupts :
    addWall emptyFloorplan wallAB ≠ emptyFloorplan ∧
    jsGet (addWall emptyFloorplan wallAB).corners ("a")
      = some ⟨none, none, none, ["w1"]⟩ ∧
    jsGet (addWall emptyFloorplan wallAB).corners ("b")
      = some ⟨none, none, none, ["w1"]⟩ ∧
    jsGet (addWall emptyFloorplan wallAB).walls ("w1") = some wallAB :=
  ⟨by decide, by decide, by decide, by decide⟩

/-- C2 (code bug evidence): after `addCorner a; addCorner b;
addWall w(a→b); removeCorner "a"`, the wall `w` is gone from the wall
map but corner `b` still lists `w` in its `adjacentWalls`:
`removeCorner` deletes the adjacent walls without pruning their other
endpoint's adjacency, so adjacency does not equal the live set of
referencing wall ids. -/
theorem c2_removeCorner_stale_adjacency :
    jsGet removeCornerScenario.walls ("w") = none ∧
    jsGet removeCornerScenario.corners ("b")
      = some ⟨some ("b"), some 100, some 0, ["w"]⟩ :=
  ⟨by decide, by decide⟩

/-- C3 (code bug evidence): from the initial viewport (origin 0, zoom 1,
cmPerPixel 2, pixelsPerCm 1/2), a zoom-out wheel event at device point
(100, 0) does not keep the world point under the cursor: the world point
under the cursor was (200, 0), but after `handleZoom` the same device
point maps to world (125, 0) and the captured world point (200, 0) now
maps to device (130, 0) — 30 device pixels away, far beyond any
floating-point tolerance. -/
theorem c3_handleZoom_not_cursor_invariant :
    canvasToWorld initialViewport 100 0 = (200, 0) ∧
    canvasToWorld (handleZoom initialViewport 1 100 0) 100 0 = (125, 0) ∧
    worldToCanvas (handleZoom initialViewport 1 100 0) 200 0 = (130, 0) := by
  refine ⟨?_, ?_, ?_⟩ <;>
    norm_num [canvasToWorld, worldToCanvas, handleZoom, initialViewport, min_def, max_def]

/-- C6 (code bug evidence): on the 4-corner square cycle (corners
c1..c4, walls w1..w4 added in draw order), `findRooms` does not return
exactly one room containing all 4 corners: it returns two rooms, the
first of which, [c3, c2, c1], is the whole DFS path rather than the
sub-path of the cycle (c2–c1–c2 is the repeated-node cycle and has
length 2), and is not even a cycle of the graph. -/
theorem c6_findRooms_square_two_rooms :
    findRooms squareFloorplan.corners squareFloorplan.walls
      = some [["c3", "c2", "c1"], ["c4", "c3", "c2", "c1"]] := by decide

/-- C7 (code bug evidence): `loadFloorplan` installs a parsed document
wholesale: a document whose only wall references the nonexistent corner
"ghost" is loaded verbatim, with the orphaned wall present in the loaded
graph and its endpoint absent — no validation, no dropping, no
rejection. -/
theorem c7_loadFloorplan_installs_orphan :
    loadFloorplan (some orphanDoc) emptyFloorplan = orphanDoc ∧
    jsGet orphanDoc.walls ("w") = some orphanWall ∧
    jsGet orphanDoc.corners ("ghost") = none :=
  ⟨rfl, by decide, rfl⟩

/-- C4: at any fixed viewport whose derived scales satisfy
`cmPerPixel = 2 / zoom` and `pixelsPerCm = zoom / 2` with zoom in the
clamp range [0.2, 8], the device→world transform applied to the
world→device transform of any world point returns the point exactly. -/
theorem c4_worldFromDevice_inverts_deviceFromWorld (v : Viewport) (wx wy : ℚ)
    (hcpp : v.cmPerPixel = 2 / v.zoom) (hppc : v.pixelsPerCm = v.zoom / 2)
    (hlo : 1 / 5 ≤ v.zoom) (hhi : v.zoom ≤ 8) :
    canvasToWorld v (worldToCanvas v wx wy).1 (worldToCanvas v wx wy).2 = (wx, wy) := by
  have hz : v.zoom ≠ 0 := ne_of_gt (lt_of_lt_of_le (by norm_num) hlo)
  unfold canvasToWorld worldToCanvas
  rw [hcpp, hppc]
  refine Prod.ext ?_ ?_
  · show ((wx - v.originX * (2 / v.zoom)) * (v.zoom / 2)) * (2 / v.zoom)
        + v.originX * (2 / v.zoom) = wx
    field_simp
  · show ((wy - v.originY * (2 / v.zoom)) * (v.zoom / 2)) * (2 / v.zoom)
        + v.originY * (2 / v.zoom) = wy
    field_simp

/-- C4 witness: the round trip at a panned viewport with zoom 1 on the
world point (123, 45). -/
theorem c4_worldFromDevice_inverts_deviceFromWorld_witness :
    canvasToWorld pannedViewport (worldToCanvas pannedViewport 123 45).1
      (worldToCanvas pannedViewport 123 45).2 = (123, 45) :=
  c4_worldFromDevice_inverts_deviceFromWorld pannedViewport 123 45
    (by norm_num [pannedViewport]) (by norm_num [pannedViewport])
    (by norm_num [pannedViewport]) (by norm_num [pannedViewport])

/-- C9 counterexample: a zero-length wall lying exactly on the query
point has `pointToSegmentDistance` 0, which is under the scaled
tolerance 30, yet `findWallAt` returns `null` because its loop skips
degenerate walls instead of applying the kernel's degenerate fallback.
So `findWallAt` does not return the first wall whose
`pointToSegmentDistance` is under the scaled tolerance. -/
theorem c9_findWallAt_skips_degenerate_within_tolerance :
    findWallAt [degenerateWall] [degenerateCorner] 0 0 15 2 = none ∧
    distanceToLineSegmentLt ⟨0, 0⟩ ⟨0, 0⟩ ⟨0, 0⟩ (15 * 2) = true := by
  constructor
  · norm_num [findWallAt, wallHitInline, degenerateWall, degenerateCorner, List.find?]
  · norm_num [distanceToLineSegmentLt, sqrtLt]

/-- The inline segment test of `findWallAt` on resolved coordinates
agrees with the kernel's `distanceToLineSegmentLt` guarded by
non-degeneracy: the loop's three-way projection branch computes the
same closest point as the kernel's parameter clamped to [0, 1]. -/
theorem inlineSeg_eq_kernelSeg (wx wy sx sy ex ey t : ℚ) :
    (if (ex - sx) * (ex - sx) + (ey - sy) * (ey - sy) = 0 then false
     else
       let param := ((wx - sx) * (ex - sx) + (wy - sy) * (ey - sy))
         / ((ex - sx) * (ex - sx) + (ey - sy) * (ey - sy))
       let q : ℚ × ℚ :=
         if param < 0 then (sx, sy)
         else if 1 < param then (ex, ey)
         else (sx + param * (ex - sx), sy + param * (ey - sy))
       sqrtLt ((wx - q.1) * (wx - q.1) + (wy - q.2) * (wy - q.2)) t)
    = (!((ex - sx) * (ex - sx) + (ey - sy) * (ey - sy) == 0) &&
        distanceToLineSegmentLt ⟨wx, wy⟩ ⟨sx, sy⟩ ⟨ex, ey⟩ t) := by
  by_cases hlen : (ex - sx) * (ex - sx) + (ey - sy) * (ey - sy) = 0
  · have hb : ((ex - sx) * (ex - sx) + (ey - sy) * (ey - sy) == 0) = true := by
      rw [hlen]
      exact beq_self_eq_true 0
    rw [if_pos hlen, hb]
    rfl
  · have hb : ((ex - sx) * (ex - sx) + (ey - sy) * (ey - sy) == 0) = false := by
      rw [beq_eq_false_iff_ne]
      exact hlen
    rw [if_neg hlen, hb]
    simp only [Bool.not_false, Bool.true_and, distanceToLineSegmentLt]
    rw [if_neg hlen]
    congr 1
    by_cases h0 : ((wx - sx) * (ex - sx) + (wy - sy) * (ey - sy))
        / ((ex - sx) * (ex - sx) + (ey - sy) * (ey - sy)) < 0
    · have hmax : max 0 (min 1 (((wx - sx) * (ex - sx) + (wy - sy) * (ey - sy))
          / ((ex - sx) * (ex - sx) + (ey - sy) * (ey - sy)))) = 0 := by
        rw [min_eq_right (le_of_lt (lt_of_lt_of_le h0 zero_le_one))]
        exact max_eq_left (le_of_lt h0)
      rw [if_pos h0, hmax]
      dsimp only
      ring
    · by_cases h1 : 1 < ((wx - sx) * (ex - sx) + (wy - sy) * (ey - sy))
          / ((ex - sx) * (ex - sx) + (ey - sy) * (ey - sy))
      · have hmax : max 0 (min 1 (((wx - sx) * (ex - sx) + (wy - sy) * (ey - sy))
            / ((ex - sx) * (ex - sx) + (ey - sy) * (ey - sy)))) = 1 := by
          rw [min_eq_left (le_of_lt h1)]
          exact max_eq_right zero_le_one
        rw [if_neg h0, if_pos h1, hmax]
        dsimp only
        ring
      · have hmax : max 0 (min 1 (((wx - sx) * (ex - sx) + (wy - sy) * (ey - sy))
            / ((ex - sx) * (ex - sx) + (ey - sy) * (ey - sy))))
            = ((wx - sx) * (ex - sx) + (wy - sy) * (ey - sy))
              / ((ex - sx) * (ex - sx) + (ey - sy) * (ey - sy)) := by
          rw [min_eq_right (not_lt.mp h1)]
          exact max_eq_right (not_lt.mp h0)
        rw [if_neg h0, if_neg h1, hmax]

/-- The loop body of `findWallAt` agrees with the amended per-wall
predicate: resolvable endpoints with defined coordinates, non-degenerate
segment, and the kernel point-to-segment distance under the scaled
tolerance. -/
theorem wallHitInline_eq_wallHit (corners : List (JsCorner ℚ)) (wx wy tol cpp : ℚ)
    (w : Wall ℚ) :
    wallHitInline corners wx wy tol cpp w = wallHit corners wx wy (tol * cpp) w := by
  unfold wallHitInline wallHit
  cases corners.find? (fun c => c.id == some w.startCorner) with
  | none => rfl
  | some s =>
      cases corners.find? (fun c => c.id == some w.endCorner) with
      | none => rfl
      | some e =>
          obtain ⟨sid, sxo, syo, sadj⟩ := s
          obtain ⟨eid, exo, eyo, eadj⟩ := e
          cases sxo with
          | none => rfl
          | some sx =>
              cases syo with
              | none => rfl
              | some sy =>
                  cases exo with
                  | none => rfl
                  | some ex =>
                      cases eyo with
                      | none => rfl
                      | some ey => exact inlineSeg_eq_kernelSeg wx wy sx sy ex ey (tol * cpp)

/-- C9 amended: `findWallAt` returns the first wall in iteration order
whose endpoints both resolve to corners with defined coordinates, whose
segment is non-degenerate, and whose `pointToSegmentDistance` from the
query point is under `tolerancePx * cmPerPixel` (`null` when no such
wall exists); walls with a missing endpoint or zero length are skipped
even when within tolerance.  The concrete wall from (0,0) to (100,0)
with tolerance 15 device px at cmPerPixel = 2 is hit at (50,20) and
missed at (50,40). -/
theorem c9_findWallAt_first_qualifying_wall :
    (∀ (walls : List (Wall ℚ)) (corners : List (JsCorner ℚ)) (wx wy tol cpp : ℚ),
        findWallAt walls corners wx wy tol cpp
          = walls.find? (wallHit corners wx wy (tol * cpp))) ∧
    findWallAt [hitWall] [hitCornerA, hitCornerB] 50 20 15 2 = some hitWall ∧
    findWallAt [hitWall] [hitCornerA, hitCornerB] 50 40 15 2 = none := by
  refine ⟨?_, ?_, ?_⟩
  · intro walls corners wx wy tol cpp
    unfold findWallAt
    have hfun : wallHitInline corners wx wy tol cpp = wallHit corners wx wy (tol * cpp) :=
      funext (wallHitInline_eq_wallHit corners wx wy tol cpp)
    rw [hfun]
  · have hab : (("a" : String) == "b") = false := by decide
    norm_num [findWallAt, wallHitInline, hitWall, hitCornerA, hitCornerB, sqrtLt,
      List.find?, hab]
  · have hab : (("a" : String) == "b") = false := by decide
    norm_num [findWallAt, wallHitInline, hitWall, hitCornerA, hitCornerB, sqrtLt,
      List.find?, hab]

/-- C10: `MathUtils.wallLength` returns 0 and `MathUtils.wallCenter`
returns null whenever either endpoint corner of the wall is absent from
the corner map: both are total on orphaned walls. -/
theorem c10_wallLength_wallCenter_orphan_defaults (w : Wall ℝ)
    (corners : JsMap (JsCorner ℝ))
    (h : jsGet corners w.startCorner = none ∨ jsGet corners w.endCorner = none) :
    wallLength w corners = some 0 ∧ wallCenter w corners = none := by
  rcases h with h | h <;>
    cases hs : jsGet corners w.startCorner <;>
    cases he : jsGet corners w.endCorner <;>
    simp_all [wallLength, wallCenter]

/-- C10 witness: the wall with both endpoints missing from the empty
corner map. -/
theorem c10_wallLength_wallCenter_orphan_defaults_witness :
    wallLength orphanWallR [] = some 0 ∧ wallCenter orphanWallR [] = none :=
  c10_wallLength_wallCenter_orphan_defaults orphanWallR [] (Or.inl rfl)

/-- C5: in draw mode, a pointer-up with no intervening drag, in a
pending chain (`lastNode` and `firstCorner` set), whose resolved target
hit-tests onto the first corner and lies within the 25-cm snap
tolerance of it: the editor adds exactly one new wall from the last
node to the first corner (fresh id appended to the wall keys, walls map
updated by `jsSet` alone), creates no corner (corner keys unchanged),
switches the editor mode out of draw into move, and resets the drawing
state (lastNode and firstCorner cleared). -/
theorem c5_closing_click_closes_room
    (fp : Floorplan ℚ) (ds : DrawState) (ln fc c : JsCorner ℚ)
    (lid fid : String) (cpp : ℚ) (cid wid : String)
    (hln : ds.lastNode = some ln) (hfc : ds.firstCorner = some fc)
    (hclick : findCornerAt (jsValues fp.corners) ds.targetX ds.targetY 15 cpp = some c)
    (hid : c.id = fc.id)
    (hsnap : jsDistLt ds.targetX ds.targetY fc.x fc.y 25 = true)
    (hlid : ln.id = some lid) (hfid : fc.id = some fid)
    (hlk : (jsGet fp.corners lid).isSome = true)
    (hfk : (jsGet fp.corners fid).isSome = true)
    (hfresh : jsGet fp.walls wid = none) :
    handleMouseUp fp ds EditorMode.draw false cpp cid wid
      = (addWall fp ⟨wid, lid, fid, 10, 250⟩,
         ⟨none, some 0, some 0, none⟩, EditorMode.move) ∧
    jsKeys (addWall fp ⟨wid, lid, fid, 10, 250⟩).corners = jsKeys fp.corners ∧
    (addWall fp ⟨wid, lid, fid, 10, 250⟩).walls
      = jsSet fp.walls wid ⟨wid, lid, fid, 10, 250⟩ ∧
    jsKeys (addWall fp ⟨wid, lid, fid, 10, 250⟩).walls = jsKeys fp.walls ++ [wid] := by
  refine ⟨?_, jsKeys_addWall_corners fp ⟨wid, lid, fid, 10, 250⟩ hlk hfk, rfl,
    jsKeys_addWall_walls fp ⟨wid, lid, fid, 10, 250⟩ hfresh⟩
  obtain ⟨dln, dtx, dty, dfc⟩ := ds
  simp only at hln hfc hclick hsnap
  subst hln
  subst hfc
  unfold handleMouseUp
  rw [if_pos ⟨rfl, rfl⟩]
  simp only [hclick, hid, hsnap, beq_self_eq_true, Bool.and_self, hlid, hfid,
    Option.getD_some]

/-- C5 witness: the chain a→b over the wall w1, closing back onto a at
target (0, 0) with cmPerPixel 2: one wall w9 from b to a is added, no
corner is created, the mode flips to move and the drawing state
resets. -/
theorem c5_closing_click_closes_room_witness :
    handleMouseUp chainFloorplan chainDrawState EditorMode.draw false 2 ("c9") ("w9")
      = (addWall chainFloorplan ⟨"w9", "b", "a", 10, 250⟩,
         ⟨none, some 0, some 0, none⟩, EditorMode.move) ∧
    jsKeys (addWall chainFloorplan ⟨"w9", "b", "a", 10, 250⟩).corners
      = jsKeys chainFloorplan.corners ∧
    (addWall chainFloorplan ⟨"w9", "b", "a", 10, 250⟩).walls
      = jsSet chainFloorplan.walls ("w9") ⟨"w9", "b", "a", 10, 250⟩ ∧
    jsKeys (addWall chainFloorplan ⟨"w9", "b", "a", 10, 250⟩).walls
      = jsKeys chainFloorplan.walls ++ ["w9"] :=
  c5_closing_click_closes_room chainFloorplan chainDrawState chainCornerB chainCornerA
    chainCornerA ("b") ("a") 2 ("c9") ("w9") rfl rfl
    (by norm_num [findCornerAt, jsValues, chainFloorplan, chainDrawState, chainCornerA,
      chainCornerB, jsDistLt, sqrtLt, List.find?])
    rfl
    (by norm_num [chainDrawState, chainCornerA, jsDistLt, sqrtLt])
    rfl rfl (by decide) (by decide) (by decide)

/-- C8: committing an inline wall-length edit.  Success path: when the
wall and both endpoint corners resolve, the text parses to a length L
that is neither falsy nor under 10 cm, and the wall is non-degenerate,
the commit moves only the end corner, along the wall's existing
direction (a positive multiple of the direction vector), so that the
distance from the fixed start corner becomes exactly L, and the editor
closes; the wall map is untouched.  Failure paths: unparsable text, or
a parsed length under 10 cm, discard the edit, close the editor and
leave the floorplan unchanged. -/
theorem c8_length_edit_commit :
    (∀ (fp : Floorplan ℝ) (wid : String) (wall : Wall ℝ) (s e : JsCorner ℝ)
        (sx sy ex ey : ℝ) (txt : String) (L : ℚ),
        (jsValues fp.walls).find? (fun w => w.id == wid) = some wall →
        (jsValues fp.corners).find? (fun c => c.id == some wall.startCorner) = some s →
        (jsValues fp.corners).find? (fun c => c.id == some wall.endCorner) = some e →
        s.x = some sx → s.y = some sy → e.x = some ex → e.y = some ey →
        parseFeetInches txt = some L →
        ¬(L = 0 ∨ L < 10) →
        ¬(ex - sx = 0 ∧ ey - sy = 0) →
        jsGet fp.corners wall.endCorner = some e →
        ∃ x' y',
          editCommit fp (some wid) txt
            = some ({ fp with corners :=
                (jsSet fp.corners wall.endCorner { e with x := some x', y := some y' }) },
                none)
          ∧ (x' - sx) ^ 2 + (y' - sy) ^ 2 = ((L : ℝ)) ^ 2
          ∧ ∃ t : ℝ, 0 < t ∧ x' - sx = t * (ex - sx) ∧ y' - sy = t * (ey - sy)) ∧
    (∀ (fp : Floorplan ℝ) (wid : String) (txt : String),
        parseFeetInches txt = none →
        editCommit fp (some wid) txt = some (fp, none)) ∧
    (∀ (fp : Floorplan ℝ) (wid : String) (txt : String) (L : ℚ),
        parseFeetInches txt = some L → L < 10 →
        editCommit fp (some wid) txt = some (fp, none)) := by
  refine ⟨?_, ?_, ?_⟩
  · intro fp wid wall s e sx sy ex ey txt L h1 h2 h3 hsx hsy hex hey hparse hL hnd hek
    have heid : e.id = some wall.endCorner := by
      have hp := List.find?_some h3
      exact eq_of_beq hp
    have hS : (0 : ℝ) < (ex - sx) * (ex - sx) + (ey - sy) * (ey - sy) := by
      rcases not_and_or.mp hnd with h | h
      · have hx : 0 < (ex - sx) * (ex - sx) := mul_self_pos.mpr h
        nlinarith [mul_self_nonneg (ey - sy)]
      · have hy : 0 < (ey - sy) * (ey - sy) := mul_self_pos.mpr h
        nlinarith [mul_self_nonneg (ex - sx)]
    have hsqrt : 0 < Real.sqrt ((ex - sx) * (ex - sx) + (ey - sy) * (ey - sy)) :=
      Real.sqrt_pos.mpr hS
    have hss : Real.sqrt ((ex - sx) * (ex - sx) + (ey - sy) * (ey - sy))
        * Real.sqrt ((ex - sx) * (ex - sx) + (ey - sy) * (ey - sy))
        = (ex - sx) * (ex - sx) + (ey - sy) * (ey - sy) :=
      Real.mul_self_sqrt (le_of_lt hS)
    have hL10 : (10 : ℚ) ≤ L := le_of_not_lt (fun hlt => hL (Or.inr hlt))
    have hLpos : (0 : ℝ) < ((L : ℚ) : ℝ) := by
      have : (0 : ℚ) < L := lt_of_lt_of_le (by norm_num) hL10
      exact_mod_cast this
    refine ⟨sx + (ex - sx) * (((L : ℚ) : ℝ)
        / Real.sqrt ((ex - sx) * (ex - sx) + (ey - sy) * (ey - sy))),
      sy + (ey - sy) * (((L : ℚ) : ℝ)
        / Real.sqrt ((ex - sx) * (ex - sx) + (ey - sy) * (ey - sy))), ?_, ?_, ?_⟩
    · unfold editCommit
      simp only [h1, h2, h3, hsx, hsy, hex, hey, hparse]
      rw [if_neg hL]
      rw [if_neg (ne_of_gt hsqrt)]
      unfold moveCorner
      rw [heid]
      simp only [Option.getD_some, hek]
      rw [heid]
    · have key : (sx + (ex - sx) * (((L : ℚ) : ℝ)
          / Real.sqrt ((ex - sx) * (ex - sx) + (ey - sy) * (ey - sy))) - sx) ^ 2
          + (sy + (ey - sy) * (((L : ℚ) : ℝ)
          / Real.sqrt ((ex - sx) * (ex - sx) + (ey - sy) * (ey - sy))) - sy) ^ 2
          = ((ex - sx) * (ex - sx) + (ey - sy) * (ey - sy)) * (((L : ℚ) : ℝ) ^ 2
            / (Real.sqrt ((ex - sx) * (ex - sx) + (ey - sy) * (ey - sy))
               * Real.sqrt ((ex - sx) * (ex - sx) + (ey - sy) * (ey - sy)))) := by
        ring
      rw [key, hss, mul_div_cancel₀ _ (ne_of_gt hS)]
    · refine ⟨((L : ℚ) : ℝ)
        / Real.sqrt ((ex - sx) * (ex - sx) + (ey - sy) * (ey - sy)),
        div_pos hLpos hsqrt, by ring, by ring⟩
  · intro fp wid txt hparse
    unfold editCommit
    rcases hfw : (jsValues fp.walls).find? (fun w => w.id == wid) with _ | wall
    · simp only [hfw]
    · rcases hfs : (jsValues fp.corners).find? (fun c => c.id == some wall.startCorner)
          with _ | s <;>
        rcases hfe : (jsValues fp.corners).find? (fun c => c.id == some wall.endCorner)
          with _ | e <;>
        simp only [hfw, hfs, hfe, hparse]
  · intro fp wid txt L hparse hsmall
    unfold editCommit
    rcases hfw : (jsValues fp.walls).find? (fun w => w.id == wid) with _ | wall
    · simp only [hfw]
    · rcases hfs : (jsValues fp.corners).find? (fun c => c.id == some wall.startCorner)
          with _ | s <;>
        rcases hfe : (jsValues fp.corners).find? (fun c => c.id == some wall.endCorner)
          with _ | e <;>
        simp only [hfw, hfs, hfe, hparse] <;>
        rw [if_pos (Or.inr hsmall)]

/-- C8 witness: the 3-4-5 wall from (0,0) to (30,40) (length 50 cm),
edited to 150 inches = 381 cm: the end corner moves along (30,40) to a
point at distance 381 from the fixed start, the editor closes. -/
theorem c8_length_edit_commit_witness :
    ∃ x' y',
      editCommit editFloorplan (some ("w")) ("150\"")
        = some ({ editFloorplan with corners :=
            (jsSet editFloorplan.corners ("b")
              { editCornerE with x := some x', y := some y' }) }, none)
      ∧ (x' - 0) ^ 2 + (y' - 0) ^ 2 = (((381 : ℚ) : ℝ)) ^ 2
      ∧ ∃ t : ℝ, 0 < t ∧ x' - 0 = t * (30 - 0) ∧ y' - 0 = t * (40 - 0) :=
  c8_length_edit_commit.1 editFloorplan ("w") editWall editCornerS editCornerE
    0 0 30 40 ("150\"") 381 rfl rfl rfl rfl rfl rfl rfl
    (by
      have h : parseFeetInches ("150\"")
          = some (decToRat ['1', '5', '0'] [] * (127 / 50)) := rfl
      have hd : digitsToNat ['1', '5', '0'] = 150 := by decide
      have hz : digitsToNat [] = 0 := by decide
      rw [h]
      norm_num [decToRat, hd, hz])
    (by norm_num) (by norm_num) rfl

end Home3D
